import Mathlib

/-!
Shallow embedding of the qubit-flip workflow of the FiQCI/helmi-examples
repository (src/qiskit/qb_flip.py, with the same helper functions appearing
in src/qiskit/qb_flip_simple.py and the environment check repeated in
src/qiskit/first_quantum_job.py).

Modelling conventions:
* A Qiskit circuit is reduced to the data the scripts actually produce:
  the register size, the ordered list of X-gate target register positions,
  and whether `measure_all` was called.  An integer argument to `qc.x` is
  resolved by indexing the circuit qubit list, exactly as Qiskit does: an
  index in [0, k) names that register position, an index in [-k, 0) wraps
  Python-style to position k + index, and anything else raises
  CircuitError at circuit-construction time (`resolveIndex`).
* `counts` dictionaries are association lists `List (String × Nat)`;
  `dict.get(key, 0)` becomes `countsGet`.
* Python exceptions become an explicit error type `FlipError`.  The
  `ValueError` raised for a missing HELMI_CORTEX_URL is `configError msg`
  (the spec calls it ConfigurationError); the CircuitError raised by an
  out-of-range gate index is `circuitError`; the `ZeroDivisionError` raised
  by `success_counts / shots` when `shots == 0` is `zeroDivisionError` (the
  spec files it under InvalidInputError); failures of the external
  `execute`/`job.result()` boundary are `submissionError`/`executionError`.
* The external JobRunner boundary (`execute` + `job.result().get_counts()`)
  is an oracle parameter `ex : Circuit → Mapping → Except FlipError Counts`.
* True division of two Python ints yields a float; it is modelled exactly
  as a rational number.
-/

namespace HelmiExamples

/-- A counts dictionary: observed bitstring ↦ number of occurrences. -/
abbrev Counts := List (String × Nat)

/-- Python `counts.get(desired_state, 0)`. -/
def countsGet (counts : Counts) (key : String) : Nat :=
  match counts.find? (fun p => p.1 == key) with
  | some p => p.2
  | none => 0

/-- Error taxonomy for the modelled Python exceptions. -/
inductive FlipError where
  | configError (msg : String)
  | circuitError
  | zeroDivisionError
  | submissionError
  | executionError
  deriving DecidableEq, Repr

deriving instance DecidableEq for Except

/-- Function calculate_success_probability of qb_flip.py (textually identical in
qb_flip_simple.py): `counts.get(desired_state, 0) / shots`.  The division
raises `ZeroDivisionError` when `shots == 0`, otherwise returns the exact
quotient. -/
def calculate_success_probability (counts : Counts) (shots : Nat)
    (desired_state : String) : Except FlipError ℚ :=
  if shots = 0 then .error .zeroDivisionError
  else .ok ((countsGet counts desired_state : ℚ) / (shots : ℚ))

/-- The part of a Qiskit circuit these scripts construct: a quantum register
of `numQubits` qubits, an ordered list of resolved X-gate register
positions, and a flag recording the trailing `measure_all()`. -/
structure Circuit where
  numQubits : Nat
  gates : List Nat
  measuredAll : Bool
  deriving DecidableEq, Repr

/-- The qubit mapping `{qreg[i]: qubits[i]}`: register position ↦ physical
qubit index.  The keys `qreg[i]` are pairwise distinct register bits,
rendered by their positions. -/
abbrev Mapping := List (Nat × Int)

/-- How Qiskit resolves an integer qubit specifier passed to a gate on a
k-qubit circuit: it indexes the circuit qubit list, so an index in [0, k)
names that register position, an index in [-k, 0) wraps Python-style to
position k + index, and any other integer raises CircuitError. -/
def resolveIndex (k : Nat) (v : Int) : Except FlipError Nat :=
  if 0 ≤ v ∧ v < (k : Int) then .ok v.toNat
  else if -(k : Int) ≤ v ∧ v < 0 then .ok (v + k).toNat
  else .error .circuitError

/-- The loop `for qubit in qubits: qc.x(qubit)` on a k-qubit circuit: each
element is resolved through `resolveIndex`; the first out-of-range element
raises, aborting the construction. -/
def applyXGates (k : Nat) : List Int → Except FlipError (List Nat)
  | [] => .ok []
  | v :: rest =>
    match resolveIndex k v with
    | .error e => .error e
    | .ok i =>
      match applyXGates k rest with
      | .error e => .error e
      | .ok is => .ok (i :: is)

/-- Function flip_circuit of qb_flip.py: a register of `len(qubits)` qubits,
then `qc.x(qubit)` for each `qubit in qubits` — the loop passes the list
element itself, not its position, to `qc.x`, so each element is resolved
(and bounds-checked) against the k-qubit register — then `measure_all` and
the mapping `{qreg[i]: qubits[i]}`.  A CircuitError from any `qc.x` call
propagates before the mapping line is reached. -/
def flip_circuit (qubits : List Int) : Except FlipError (Circuit × Mapping) :=
  match applyXGates qubits.length qubits with
  | .error e => .error e
  | .ok gates =>
    .ok ({ numQubits := qubits.length, gates := gates, measuredAll := true },
         (List.range qubits.length).zip qubits)

/-- Function single_flip_circuit of qb_flip.py: a 1-qubit register, `qc.x(0)`,
`measure_all`, and the mapping `{qreg[0]: qubit}`. -/
def single_flip_circuit (qubit : Int) : Circuit × Mapping :=
  ({ numQubits := 1, gates := [0], measuredAll := true }, [(0, qubit)])

/-- The CLI backend choice (`--backend helmi|simulator`). -/
inductive BackendChoice where
  | helmi
  | simulator
  deriving DecidableEq, Repr

/-- The provider objects the scripts can end up with. -/
inductive Provider where
  | iqm (url : String)
  | aer
  deriving DecidableEq, Repr

/-- The provider-resolution block at the top of `flip_qubits` (the same
check opens first_quantum_job.py and the main function of qb_flip_simple.py): for
`helmi`, read `HELMI_CORTEX_URL` from the environment and raise
`ValueError("Environment variable HELMI_CORTEX_URL is not set")` when it is
absent or falsy (empty); otherwise build an `IQMProvider`.  For
`simulator`, use `Aer` without consulting the environment. -/
def resolveProvider (backend : BackendChoice) (env : Option String) :
    Except FlipError Provider :=
  match backend with
  | .helmi =>
    match env with
    | none => .error (.configError "Environment variable HELMI_CORTEX_URL is not set")
    | some url =>
      if url = "" then
        .error (.configError "Environment variable HELMI_CORTEX_URL is not set")
      else .ok (.iqm url)
  | .simulator => .ok .aer

/-- The scoring loop of `flip_qubits`: for each (circuit, mapping) pair, run
the job through the oracle `ex`, score the counts, and print the success
probability.  The loop body has no exception handler, so the first failing
iteration propagates: the result is the list of probabilities printed before
the failure, paired with the propagated exception (if any); later pairs are
never submitted. -/
def runLoop (ex : Circuit → Mapping → Except FlipError Counts)
    (shots : Nat) (desired : String) :
    List (Circuit × Mapping) → List ℚ × Option FlipError
  | [] => ([], none)
  | (c, m) :: rest =>
    match ex c m with
    | .error e => ([], some e)
    | .ok counts =>
      match calculate_success_probability counts shots desired with
      | .error e => ([], some e)
      | .ok p =>
        let r := runLoop ex shots desired rest
        (p :: r.1, r.2)

/-- Function flip_qubits of qb_flip.py: resolve the provider (raising before
any job when that fails), build one `flip_circuit [0,1,2,3,4]` when no
qubits were requested (a CircuitError there would also propagate before any
job) or one `single_flip_circuit qb` per requested qubit, then run the
scoring loop with desired bitstring `"11111"` (all-qubits case) or `"1"`
(per-qubit case).  The result is the list of printed success probabilities
together with the exception that escaped, if any. -/
def flip_qubits (ex : Circuit → Mapping → Except FlipError Counts)
    (qubits : Option (List Int)) (backend : BackendChoice)
    (env : Option String) (shots : Nat) : List ℚ × Option FlipError :=
  match resolveProvider backend env with
  | .error e => ([], some e)
  | .ok _ =>
    match qubits with
    | none =>
      match flip_circuit [0, 1, 2, 3, 4] with
      | .error e => ([], some e)
      | .ok pair => runLoop ex shots "11111" [pair]
    | some qs => runLoop ex shots "1" (qs.map single_flip_circuit)

/-- Pigeonhole fact used for the amended C2: a duplicate-free list of
integers whose members all lie in [0, length) contains every such index. -/
lemma mem_int_of_nodup_of_bounded (l : List Int) (h2 : l.Nodup)
    (h3 : ∀ q ∈ l, 0 ≤ q ∧ q < (l.length : Int)) :
    ∀ i < l.length, (i : Int) ∈ l := by
  intro i hi
  classical
  set n := l.length with hn
  have hsub : l.toFinset ⊆ (Finset.range n).image (Nat.cast : Nat → Int) := by
    intro q hq
    rw [List.mem_toFinset] at hq
    obtain ⟨h0, hlt⟩ := h3 q hq
    refine Finset.mem_image.mpr ⟨q.toNat, ?_, ?_⟩
    · rw [Finset.mem_range]
      omega
    · omega
  have hcard : ((Finset.range n).image (Nat.cast : Nat → Int)).card = n := by
    rw [Finset.card_image_of_injective _ Nat.cast_injective, Finset.card_range]
  have hlcard : l.toFinset.card = n := by
    rw [List.toFinset_card_of_nodup h2]
  have heq : l.toFinset = (Finset.range n).image (Nat.cast : Nat → Int) :=
    Finset.eq_of_subset_of_card_le hsub (by rw [hcard, hlcard])
  have hmem : (i : Int) ∈ l.toFinset := by
    rw [heq]
    exact Finset.mem_image.mpr ⟨i, Finset.mem_range.mpr hi, rfl⟩
  rwa [List.mem_toFinset] at hmem

/-- A job oracle for exercising C1: every job succeeds with counts
{"1": 1000} except the job whose mapping targets physical qubit 1, which
fails at submission. -/
def qb1FailingOracle : Circuit → Mapping → Except FlipError Counts :=
  fun _ m =>
    if m = [(0, 1)] then .error .submissionError else .ok [("1", 1000)]

/-- Helper: when every element is nonnegative and below the register size,
the gate loop succeeds and resolves each element to itself. -/
lemma applyXGates_nonneg (k : Nat) (l : List Int)
    (h : ∀ q ∈ l, 0 ≤ q ∧ q < (k : Int)) :
    applyXGates k l = .ok (l.map Int.toNat) := by
  induction l with
  | nil => rfl
  | cons v rest ih =>
    have hv := h v (List.mem_cons_self v rest)
    have hrest : ∀ q ∈ rest, 0 ≤ q ∧ q < (k : Int) :=
      fun q hq => h q (List.mem_cons_of_mem v hq)
    rw [applyXGates, resolveIndex, if_pos hv, ih hrest]
    rfl

/-- Helper: Qiskit accepts any integer index in [-k, k). -/
lemma resolveIndex_ok (k : Nat) (v : Int)
    (h : -(k : Int) ≤ v ∧ v < (k : Int)) :
    ∃ i, resolveIndex k v = .ok i := by
  unfold resolveIndex
  by_cases h0 : 0 ≤ v ∧ v < (k : Int)
  · rw [if_pos h0]
    exact ⟨_, rfl⟩
  · rw [if_neg h0, if_pos (by omega)]
    exact ⟨_, rfl⟩

/-- Helper: the gate loop succeeds whenever every element lies in the
Qiskit index range [-k, k). -/
lemma applyXGates_inRange (k : Nat) (l : List Int)
    (h : ∀ q ∈ l, -(k : Int) ≤ q ∧ q < (k : Int)) :
    ∃ gs, applyXGates k l = .ok gs := by
  induction l with
  | nil => exact ⟨[], rfl⟩
  | cons v rest ih =>
    obtain ⟨i, hi⟩ := resolveIndex_ok k v (h v (List.mem_cons_self v rest))
    obtain ⟨gs, hgs⟩ := ih (fun q hq => h q (List.mem_cons_of_mem v hq))
    exact ⟨i :: gs, by rw [applyXGates, hi, hgs]⟩

/-- C4 counterexample: at the concrete instance of the claim, qubits
[2,4], the program never yields the mapping {0 ↦ 2, 1 ↦ 4}: the gate loop
raises CircuitError at qc.x(2) on the 2-qubit register, before the mapping
line is reached, so no mapping at all can be read back. -/
theorem c4_counterexample :
    flip_circuit [2, 4] = .error .circuitError ∧
      (flip_circuit [2, 4]).toOption = none := by
  decide

/-- C4 amended: for every duplicate-free qubit list whose elements lie in
the Qiskit index range [-k, k), flip_circuit succeeds, and the mapping it
returns has one entry per input element, keys equal to the register
positions 0, …, k-1 in order, and values equal to the input sequence in
order — hence the mapping is injective (duplicate-free values).  Outside
that range the builder raises CircuitError before the mapping exists. -/
theorem c4_mapping_faithful (qubits : List Int) (hnd : qubits.Nodup)
    (hbd : ∀ q ∈ qubits,
      -(qubits.length : Int) ≤ q ∧ q < (qubits.length : Int)) :
    ∃ c, flip_circuit qubits =
        .ok (c, (List.range qubits.length).zip qubits) ∧
      ((List.range qubits.length).zip qubits).length = qubits.length ∧
      ((List.range qubits.length).zip qubits).map Prod.fst =
        List.range qubits.length ∧
      ((List.range qubits.length).zip qubits).map Prod.snd = qubits ∧
      (((List.range qubits.length).zip qubits).map Prod.snd).Nodup := by
  obtain ⟨gs, hgs⟩ := applyXGates_inRange qubits.length qubits hbd
  have hsnd : ((List.range qubits.length).zip qubits).map Prod.snd =
      qubits := by
    rw [List.map_snd_zip]
    simp
  refine ⟨{ numQubits := qubits.length, gates := gs, measuredAll := true },
    ?_, ?_, ?_, hsnd, ?_⟩
  · rw [flip_circuit, hgs]
  · simp
  · rw [List.map_fst_zip]
    simp
  · rw [hsnd]
    exact hnd

/-- Witness for C4 amended at the in-range duplicate-free list [1,0]:
the builder succeeds and reading back its mapping yields {0 ↦ 1, 1 ↦ 0}. -/
theorem c4_witness :
    (([1, 0] : List Int).Nodup ∧
      (∀ q ∈ ([1, 0] : List Int),
        -(([1, 0] : List Int).length : Int) ≤ q ∧
          q < (([1, 0] : List Int).length : Int)) ∧
      (∃ c, flip_circuit [1, 0] =
          .ok (c, (List.range ([1, 0] : List Int).length).zip ([1, 0] : List Int)) ∧
        ((List.range ([1, 0] : List Int).length).zip ([1, 0] : List Int)).length =
          ([1, 0] : List Int).length ∧
        ((List.range ([1, 0] : List Int).length).zip ([1, 0] : List Int)).map Prod.fst =
          List.range ([1, 0] : List Int).length ∧
        ((List.range ([1, 0] : List Int).length).zip ([1, 0] : List Int)).map Prod.snd =
          ([1, 0] : List Int) ∧
        (((List.range ([1, 0] : List Int).length).zip
          ([1, 0] : List Int)).map Prod.snd).Nodup)) ∧
      flip_circuit [1, 0] =
        .ok ({ numQubits := 2, gates := [1, 0], measuredAll := true },
          [(0, 1), (1, 0)]) :=
  ⟨⟨by decide, by decide,
    c4_mapping_faithful [1, 0] (by decide) (by decide)⟩, by decide⟩

/-- Helper: with a positive shot count the division succeeds and returns
the exact quotient. -/
lemma calc_success_pos (counts : Counts) (shots : Nat) (desired : String)
    (h : shots ≠ 0) :
    calculate_success_probability counts shots desired =
      .ok ((countsGet counts desired : ℚ) / (shots : ℚ)) := by
  unfold calculate_success_probability
  rw [if_neg h]

/-- C5: calling calculate_success_probability with shots = 0 fails: the
division `success_counts / shots` raises ZeroDivisionError (the error the
spec taxonomy names InvalidInputError) for every counts dictionary and
every desired bitstring. -/
theorem c5_zero_shots_fails (counts : Counts) (desired : String) :
    calculate_success_probability counts 0 desired =
      .error .zeroDivisionError := rfl

/-- C6: for every counts dictionary, every shots > 0 and every desired
bitstring, calculate_success_probability returns the count recorded for the
desired bitstring divided by shots. -/
theorem c6_success_probability_is_quotient (counts : Counts) (shots : Nat)
    (desired : String) (h : shots ≠ 0) :
    calculate_success_probability counts shots desired =
      .ok ((countsGet counts desired : ℚ) / (shots : ℚ)) :=
  calc_success_pos counts shots desired h

/-- Witness for C6 at the concrete instance of the claim: counts
{"1": 700, "0": 300}, shots 1000, desired "1" give success probability
0.70. -/
theorem c6_witness :
    (1000 ≠ 0) ∧
      calculate_success_probability [("1", 700), ("0", 300)] 1000 "1" =
        .ok (7 / 10 : ℚ) := by
  refine ⟨by decide, ?_⟩
  rw [c6_success_probability_is_quotient [("1", 700), ("0", 300)] 1000 "1"
    (by decide)]
  norm_num [countsGet, List.find?]

/-- C9: when the desired bitstring is missing from the counts dictionary,
calculate_success_probability returns 0 for every positive shots, because
`counts.get(desired_state, 0)` supplies the default 0 instead of raising a
KeyError. -/
theorem c9_missing_key_scores_zero (counts : Counts) (shots : Nat)
    (desired : String) (h : shots ≠ 0)
    (hmiss : ∀ p ∈ counts, p.1 ≠ desired) :
    calculate_success_probability counts shots desired = .ok 0 := by
  have hfind : counts.find? (fun p => p.1 == desired) = none := by
    rw [List.find?_eq_none]
    intro p hp
    simpa using hmiss p hp
  unfold calculate_success_probability
  rw [if_neg h]
  simp [countsGet, hfind]

/-- Witness for C9: counts {"0": 300} with shots 1000 and desired "1"
score exactly 0. -/
theorem c9_witness :
    (1000 ≠ 0) ∧ (∀ p ∈ ([("0", 300)] : Counts), p.1 ≠ "1") ∧
      calculate_success_probability [("0", 300)] 1000 "1" = .ok 0 :=
  ⟨by decide, by decide,
    c9_missing_key_scores_zero [("0", 300)] 1000 "1" (by decide) (by decide)⟩

/-- C10: single_flip_circuit accepts every integer qubit index, including
negative ones and ones beyond any device range, performing no validation:
it always returns the 1-qubit measured circuit with an X at register
position 0 and the mapping sending position 0 to the given index
unchanged. -/
theorem c10_single_flip_no_validation (q : Int) :
    single_flip_circuit q =
      ({ numQubits := 1, gates := [0], measuredAll := true }, [(0, q)]) := rfl

/-- C7: selecting the helmi backend with HELMI_CORTEX_URL absent makes
flip_qubits fail with the ValueError naming the missing variable (the
ConfigurationError of the spec) before any job is submitted — the result
is the same for every job oracle and contains no scores — while selecting
the simulator resolves the Aer provider for every environment, never
reading the endpoint. -/
theorem c7_backend_selection :
    (∀ ex qubits shots,
        flip_qubits ex qubits .helmi none shots =
          ([], some (.configError
            "Environment variable HELMI_CORTEX_URL is not set"))) ∧
      (∀ env, resolveProvider .simulator env = .ok .aer) := by
  constructor
  · intro ex qubits shots
    rfl
  · intro env
    rfl

/-- C8: with no qubit list, flip_qubits builds exactly one flip circuit
over the full default qubit set [0,1,2,3,4] — which succeeds, with a
5-qubit register, an X at every register position and the identity mapping
— and runs the scoring loop on that single circuit against the all-ones
desired bitstring "11111"; with an explicit qubit list it runs one
single_flip_circuit job per requested qubit, each scored against the
single-character desired bitstring "1". -/
theorem c8_default_and_per_qubit_plans :
    (flip_circuit [0, 1, 2, 3, 4] =
        .ok ({ numQubits := 5, gates := [0, 1, 2, 3, 4], measuredAll := true },
          [(0, 0), (1, 1), (2, 2), (3, 3), (4, 4)])) ∧
      (∀ ex env shots,
        flip_qubits ex none .simulator env shots =
          runLoop ex shots "11111"
            [({ numQubits := 5, gates := [0, 1, 2, 3, 4], measuredAll := true },
              [(0, 0), (1, 1), (2, 2), (3, 3), (4, 4)])]) ∧
      (∀ ex env shots qs,
        flip_qubits ex (some qs) .simulator env shots =
          runLoop ex shots "1" (qs.map single_flip_circuit)) := by
  refine ⟨rfl, ?_, ?_⟩
  · intro ex env shots
    rfl
  · intro ex env shots qs
    rfl

/-- C2 counterexample: for the distinct qubit list [2,4] the claim fails.
The first loop iteration calls qc.x(2) on the 2-qubit register, which is
out of the Qiskit index range [-2, 2), so flip_circuit raises CircuitError
and produces no circuit at all — in particular not the claimed 2-qubit
circuit with an X on both register positions. -/
theorem c2_counterexample :
    flip_circuit [2, 4] = .error .circuitError ∧
      flip_circuit [2, 4] ≠
        .ok ({ numQubits := 2, gates := [0, 1], measuredAll := true },
          [(0, 2), (1, 4)]) := by
  decide

/-- C2 amended: for every non-empty duplicate-free qubit list whose
elements all lie in [0, k) where k is its length (the only shape the
repository ever passes, [0,1,2,3,4]), flip_circuit succeeds and yields a
k-qubit measured circuit whose gate positions all lie in [0, k) and in
which every register position receives an X gate.  When some element falls
outside the Qiskit index range the builder instead raises CircuitError. -/
theorem c2_flip_circuit_in_range (qubits : List Int) (_hne : qubits ≠ [])
    (hnd : qubits.Nodup)
    (hbd : ∀ q ∈ qubits, 0 ≤ q ∧ q < (qubits.length : Int)) :
    flip_circuit qubits =
        .ok ({ numQubits := qubits.length, gates := qubits.map Int.toNat, measuredAll := true },
          (List.range qubits.length).zip qubits) ∧
      (∀ g ∈ qubits.map Int.toNat, g < qubits.length) ∧
      (∀ i < qubits.length, i ∈ qubits.map Int.toNat) := by
  refine ⟨?_, ?_, ?_⟩
  · rw [flip_circuit, applyXGates_nonneg qubits.length qubits hbd]
  · intro g hg
    obtain ⟨q, hq, rfl⟩ := List.mem_map.mp hg
    have := hbd q hq
    omega
  · intro i hi
    have hmem := mem_int_of_nodup_of_bounded qubits hnd hbd i hi
    exact List.mem_map.mpr ⟨(i : Int), hmem, by omega⟩

/-- Witness for C2 amended at the in-range list [2,0,1]. -/
theorem c2_witness :
    (([2, 0, 1] : List Int) ≠ [] ∧ ([2, 0, 1] : List Int).Nodup ∧
      (∀ q ∈ ([2, 0, 1] : List Int),
        0 ≤ q ∧ q < (([2, 0, 1] : List Int).length : Int))) ∧
      (flip_circuit [2, 0, 1] =
          .ok ({ numQubits := ([2, 0, 1] : List Int).length, gates := ([2, 0, 1] : List Int).map Int.toNat, measuredAll := true },
            (List.range ([2, 0, 1] : List Int).length).zip [2, 0, 1]) ∧
        (∀ g ∈ ([2, 0, 1] : List Int).map Int.toNat,
          g < ([2, 0, 1] : List Int).length) ∧
        (∀ i < ([2, 0, 1] : List Int).length,
          i ∈ ([2, 0, 1] : List Int).map Int.toNat)) :=
  ⟨⟨by decide, by decide, by decide⟩,
    c2_flip_circuit_in_range [2, 0, 1] (by decide) (by decide) (by decide)⟩

/-- C3 counterexample: for qubit index 2 the two builders are not
functionally identical: single_flip_circuit 2 succeeds with the 1-qubit
circuit and mapping {0 ↦ 2}, while flip_circuit [2] calls qc.x(2) on a
1-qubit register and raises CircuitError. -/
theorem c3_counterexample :
    flip_circuit [2] = .error .circuitError ∧
      single_flip_circuit 2 =
        ({ numQubits := 1, gates := [0], measuredAll := true }, [(0, 2)]) := by
  decide

/-- C3 amended: single_flip_circuit q always succeeds with an X at register
position 0 and the mapping {0 ↦ q}, while flip_circuit [q] passes q itself
to qc.x on the 1-qubit register: it returns exactly the same circuit and
mapping when q = 0 or q = -1 (the latter wraps Python-style to position 0)
and raises CircuitError for every other q — so the two builders are
functionally identical exactly on q ∈ {0, -1}. -/
theorem c3_single_vs_general (q : Int) :
    single_flip_circuit q =
        ({ numQubits := 1, gates := [0], measuredAll := true }, [(0, q)]) ∧
      flip_circuit [q] =
        (if q = 0 ∨ q = -1 then .ok (single_flip_circuit q)
         else .error .circuitError) := by
  refine ⟨rfl, ?_⟩
  by_cases h0 : q = 0
  · subst h0
    rw [if_pos (Or.inl rfl)]
    decide
  · by_cases h1 : q = -1
    · subst h1
      rw [if_pos (Or.inr rfl)]
      decide
    · rw [if_neg (by tauto)]
      have hA : ¬(0 ≤ q ∧ q < ((1 : Nat) : Int)) := by omega
      have hB : ¬(-((1 : Nat) : Int) ≤ q ∧ q < 0) := by omega
      show (match applyXGates 1 [q] with
        | .error e => (.error e : Except FlipError (Circuit × Mapping))
        | .ok gates =>
          .ok ({ numQubits := 1, gates := gates, measuredAll := true },
            (List.range 1).zip [q])) = .error .circuitError
      rw [applyXGates, resolveIndex, if_neg hA, if_neg hB]

/-- C1 counterexample: running flip_qubits over the explicit qubit list
[0,1,2] with an oracle that fails exactly on qubit 1 yields a report with
a single score entry (qubit 0) and the propagated submission error: the
loop aborts at the failure instead of recording it and continuing, so the
final report does not contain 3 entries. -/
theorem c1_counterexample :
    qb1FailingOracle (single_flip_circuit 1).1 (single_flip_circuit 1).2 =
        .error .submissionError ∧
      (flip_qubits qb1FailingOracle (some [0, 1, 2]) .simulator none
          1000).1.length = 1 ∧
      (flip_qubits qb1FailingOracle (some [0, 1, 2]) .simulator none
          1000).2 = some .submissionError ∧
      ¬((flip_qubits qb1FailingOracle (some [0, 1, 2]) .simulator none
          1000).1.length = 3) := by
  have h0 : qb1FailingOracle (single_flip_circuit 0).1
      (single_flip_circuit 0).2 = .ok [("1", 1000)] := rfl
  have h1 : qb1FailingOracle (single_flip_circuit 1).1
      (single_flip_circuit 1).2 = .error .submissionError := rfl
  have hrun : flip_qubits qb1FailingOracle (some [0, 1, 2]) .simulator none
      1000 = ([(countsGet [("1", 1000)] "1" : ℚ) / (1000 : ℚ)],
        some .submissionError) := by
    show runLoop qb1FailingOracle 1000 "1"
        [single_flip_circuit 0, single_flip_circuit 1,
          single_flip_circuit 2] = _
    rw [runLoop]
    rw [show ((single_flip_circuit 0 : Circuit × Mapping)) =
      ((single_flip_circuit 0).1, (single_flip_circuit 0).2) from rfl]
    simp only [h0]
    rw [calc_success_pos [("1", 1000)] 1000 "1" (by decide)]
    rw [runLoop]
    rw [show ((single_flip_circuit 1 : Circuit × Mapping)) =
      ((single_flip_circuit 1).1, (single_flip_circuit 1).2) from rfl]
    simp only [h1]
    norm_num
  refine ⟨h1, ?_, ?_, ?_⟩ <;> rw [hrun] <;> simp

/-- C1 amended: a failure on one qubit job propagates out of the loop.
For a run over [0,1,2] whose oracle succeeds on the qubit-0 job and fails
on the qubit-1 job, flip_qubits reports exactly one score — the valid
score of qubit 0 — together with the escaped error; qubits 1 and 2
contribute no entries because the loop aborts early. -/
theorem c1_loop_aborts (ex : Circuit → Mapping → Except FlipError Counts)
    (env : Option String) (shots : Nat) (counts0 : Counts) (e : FlipError)
    (h0 : ex (single_flip_circuit 0).1 (single_flip_circuit 0).2 =
      .ok counts0)
    (h1 : ex (single_flip_circuit 1).1 (single_flip_circuit 1).2 =
      .error e)
    (hs : shots ≠ 0) :
    flip_qubits ex (some [0, 1, 2]) .simulator env shots =
      ([(countsGet counts0 "1" : ℚ) / (shots : ℚ)], some e) := by
  show runLoop ex shots "1"
      [single_flip_circuit 0, single_flip_circuit 1, single_flip_circuit 2] =
    ([(countsGet counts0 "1" : ℚ) / (shots : ℚ)], some e)
  rw [runLoop]
  rw [show ((single_flip_circuit 0 : Circuit × Mapping)) =
    ((single_flip_circuit 0).1, (single_flip_circuit 0).2) from rfl]
  simp only [h0]
  rw [calc_success_pos counts0 shots "1" hs]
  rw [runLoop]
  rw [show ((single_flip_circuit 1 : Circuit × Mapping)) =
    ((single_flip_circuit 1).1, (single_flip_circuit 1).2) from rfl]
  simp only [h1]

/-- Witness for C1 amended with the concrete failing oracle. -/
theorem c1_witness :
    (qb1FailingOracle (single_flip_circuit 0).1 (single_flip_circuit 0).2 =
        .ok [("1", 1000)] ∧
      qb1FailingOracle (single_flip_circuit 1).1 (single_flip_circuit 1).2 =
        .error .submissionError ∧
      (1000 ≠ 0)) ∧
      flip_qubits qb1FailingOracle (some [0, 1, 2]) .simulator none 1000 =
        ([(countsGet [("1", 1000)] "1" : ℚ) / (1000 : ℚ)],
          some .submissionError) :=
  ⟨⟨rfl, rfl, by decide⟩,
    c1_loop_aborts qb1FailingOracle none 1000 [("1", 1000)]
      .submissionError rfl rfl (by decide)⟩

end HelmiExamples
